import Mathlib

/-!
Shallow embedding of the Experiment Comparison Orchestrator of the
`ai-privacy` repository.

The authoritative source is the React component `App` in
`src/unnamed/part_002` (the current variant of `frontend/src/App.tsx`);
an earlier variant of the same file survives at
`src/frontend/src/App.tsx` and is embedded separately where a claim
compares the two.

Numbers (JS `number`) are modelled as `ℚ` (all values occurring here are
exact decimals), timestamps as `ℤ` (milliseconds, `Date.now()`), and
absent/optional JSON fields as `Option`.  JavaScript's `||` fallback
operator is falsy-aware (it treats `0`, `""`, `undefined` and `null` as
absent), which the `js*` helpers below reproduce.
-/

/-- JS `a || b` on optional numbers: `0`, `null` and `undefined` are falsy. -/
def jsOrQ (a b : Option ℚ) : Option ℚ :=
  match a with
  | some x => if x = 0 then b else some x
  | none => b

/-- JS `a || d` producing a number, `d` a (truthy or final) default. -/
def jsNumQ (a : Option ℚ) (d : ℚ) : ℚ :=
  match a with
  | some x => if x = 0 then d else x
  | none => d

/-- JS `a || d` on optional naturals (sample counts). -/
def jsNumN (a : Option ℕ) (d : ℕ) : ℕ :=
  match a with
  | some x => if x = 0 then d else x
  | none => d

/-- JS `a || d` on optional strings: the empty string is falsy. -/
def jsStr (a : Option String) (d : String) : String :=
  match a with
  | some x => if x = "" then d else x
  | none => d

/-- React state `status` (part_002 line 62): `'idle' | 'running'`. -/
inductive Status where
  | idle
  | running
deriving DecidableEq, Repr

/-- React state `trainingMode` (part_002 line 54): `'dp' | 'fl'`. -/
inductive TrainingMode where
  | dp
  | fl
deriving DecidableEq, Repr

/-- Tag `strategy` on a `Result` (part_002 line 27): `'dp' | 'fl'`. -/
inductive StrategyTag where
  | dp
  | fl
deriving DecidableEq, Repr

/-- The `Config` record (part_002 lines 9-14). -/
structure Config where
  sampleDataset : String
  modelType : String
  dpEnabled : Bool
  epsilon : Option ℚ
deriving DecidableEq, Repr

/-- The `Result` record (part_002 lines 16-28), one per evaluation call. -/
structure Result where
  baselineAccuracy : ℚ
  privateAccuracy : Option ℚ
  accuracyLoss : Option ℚ
  f1Score : Option ℚ
  precision : Option ℚ
  «recall» : Option ℚ
  epsilon : Option ℚ
  samplesEvaluated : ℕ
  modelUsed : String
  aggregator : Option String
  strategy : Option StrategyTag
deriving DecidableEq, Repr

/-- The `ComparisonData` aggregate (part_002 lines 30-33). -/
structure ComparisonData where
  baseline : Option Result
  «private» : Option Result
deriving DecidableEq, Repr

/-- Raw JSON body of an evaluation-service response; every field may be
absent (spec section 6 lists exactly these fields). -/
structure ServiceResponse where
  baseline_accuracy : Option ℚ
  private_accuracy : Option ℚ
  accuracy_loss : Option ℚ
  f1_score : Option ℚ
  precision : Option ℚ
  «recall» : Option ℚ
  epsilon : Option ℚ
  samples_evaluated : Option ℕ
  model_used : Option String
  accuracy : Option ℚ
deriving DecidableEq, Repr

/-- Outcome of one `fetch` to the evaluation service: `ok data` for a 2xx
response with parsed body `data`; `fail detail` for a non-2xx response
whose error body carried optional field `detail`
(part_002 lines 185-188 and 262-265). -/
inductive CallOutcome where
  | ok (data : ServiceResponse)
  | fail (detail : Option String)
deriving DecidableEq, Repr

/-- Whether a call outcome is a success. -/
def isOk : CallOutcome → Bool
  | CallOutcome.ok _ => true
  | CallOutcome.fail _ => false

/-- One entry of `aggregatorOptions` (part_002 lines 80-111). -/
structure AggregatorOption where
  value : String
  label : String
  description : String
  bestFor : String
deriving DecidableEq, Repr

/-- The `aggregatorOptions` table (part_002 lines 80-111). -/
def aggregatorOptions : List AggregatorOption :=
  [ { value := "fedavg", label := "FedAvg",
      description := "Classic federated averaging across participating clients.",
      bestFor := "Stable, balanced data with similar client sizes." },
    { value := "fedprox", label := "FedProx",
      description := "Adds a proximal term to stabilize training with heterogeneous data.",
      bestFor := "Non-IID data where clients drift from the global objective." },
    { value := "qffl", label := "q-FedAvg",
      description := "Reweights updates to emphasize underperforming clients.",
      bestFor := "Fairness-sensitive setups and skewed performance across clients." },
    { value := "scaffold", label := "SCAFFOLD",
      description := "Uses control variates to reduce client drift during aggregation.",
      bestFor := "Highly non-IID data with client-specific biases." },
    { value := "fedadam", label := "FedAdam",
      description := "Adaptive federated optimization with momentum and adaptive learning rates.",
      bestFor := "Fast convergence and handling diverse client distributions." } ]

/-- The `aggregatorMap` object mapping user-facing aggregation ids to
backend (service) ids (part_002 lines 240-246); JS property lookup on a
missing key yields `undefined`, i.e. `none`. -/
def aggregatorMap (a : String) : Option String :=
  if a = "fedavg" then some "FedAvg"
  else if a = "fedprox" then some "FedProx"
  else if a = "qffl" then some "q-FedAvg"
  else if a = "scaffold" then some "SCAFFOLD"
  else if a = "fedadam" then some "FedAdam"
  else none

/-- The expression `aggregatorMap[aggregator] || 'FedAvg'`
(part_002 line 248): the user-to-service translation actually applied. -/
def backendAggregator (a : String) : String :=
  jsStr (aggregatorMap a) "FedAvg"

/-- The `getAggregatorLabel` helper (part_002 lines 229-232): looks the
argument up among the option `value`s and echoes the argument itself when
unmapped.  It is the only service-id-to-display mapping in the source
(applied to `comparison.private.aggregator` at part_002 line 723 of the
render). -/
def getAggregatorLabel (value : String) : String :=
  match aggregatorOptions.find? (fun o => o.value == value) with
  | some o => o.label
  | none => value

/-- The five user-facing aggregation ids: the option `value`s of the
closed selector, which are also exactly the keys of `aggregatorMap`. -/
def userAggregatorIds : List String :=
  ["fedavg", "fedprox", "qffl", "scaffold", "fedadam"]

/-- Request body sent by `runExperiment` (part_002 lines 175-180): the
privacy strategy is forced off for a baseline run
(`dpEnabledForRun = runBaseline ? false : config.dpEnabled`, line 161),
and `epsilon` is sent as `null` unless the run has privacy enabled. -/
structure ExperimentRequest where
  dataset : String
  model_type : String
  dp_enabled : Bool
  epsilon : Option ℚ
deriving DecidableEq, Repr

/-- Builds the `/api/experiment` request body from the configuration and
the `runBaseline` flag, exactly as part_002 lines 161 and 175-180. -/
def mkExperimentRequest (config : Config) (runBaseline : Bool) : ExperimentRequest :=
  let dpEnabledForRun := if runBaseline then false else config.dpEnabled
  { dataset := config.sampleDataset
    model_type := config.modelType
    dp_enabled := dpEnabledForRun
    epsilon := if dpEnabledForRun then config.epsilon else none }

/-- The `Result` built for a baseline run (part_002 lines 195-203). -/
def mkBaselineResult (data : ServiceResponse) : Result :=
  { baselineAccuracy := jsNumQ data.baseline_accuracy 0
    privateAccuracy := none
    accuracyLoss := none
    f1Score := data.f1_score
    precision := data.precision
    «recall» := data.«recall»
    epsilon := none
    samplesEvaluated := jsNumN data.samples_evaluated 0
    modelUsed := jsStr data.model_used "Unknown"
    aggregator := none
    strategy := some StrategyTag.dp }

/-- The `Result` built for a protected differential-privacy run
(part_002 lines 207-218); note `epsilon: data.epsilon || config.epsilon`
at line 214. -/
def mkDpResult (config : Config) (data : ServiceResponse) : Result :=
  { baselineAccuracy := jsNumQ (jsOrQ data.private_accuracy data.baseline_accuracy) 0
    privateAccuracy := data.private_accuracy
    accuracyLoss := data.accuracy_loss
    f1Score := data.f1_score
    precision := data.precision
    «recall» := data.«recall»
    epsilon := jsOrQ data.epsilon config.epsilon
    samplesEvaluated := jsNumN data.samples_evaluated 0
    modelUsed := jsStr data.model_used "Unknown"
    aggregator := none
    strategy := some StrategyTag.dp }

/-- The `Result` built by the current variant of `runFederatedExperiment`
(part_002 lines 268-284): when the service omits `accuracy_loss`
(a strict `!== undefined` test, line 275), the loss is recomputed from the
response's own embedded `baseline_accuracy`. -/
def mkFlResult (aggregator : String) (data : ServiceResponse) : Result :=
  let aggLabel := getAggregatorLabel aggregator
  let backendAgg := backendAggregator aggregator
  let baselineAcc := jsNumQ data.baseline_accuracy 0
  let flAccuracy := jsNumQ data.accuracy 0
  { baselineAccuracy := baselineAcc
    privateAccuracy := some flAccuracy
    accuracyLoss := some (match data.accuracy_loss with
      | some l => l
      | none => baselineAcc - flAccuracy)
    f1Score := data.f1_score
    precision := data.precision
    «recall» := data.«recall»
    epsilon := none
    samplesEvaluated := jsNumN data.samples_evaluated 0
    modelUsed := aggLabel ++ " (Federated)"
    aggregator := some backendAgg
    strategy := some StrategyTag.fl }

/-- The `Result` built by the earlier variant of `runFederatedExperiment`
(`src/frontend/src/App.tsx` lines 721-741): the loss is recomputed from
the separately-fetched stored baseline `Result` (`comparison.baseline`)
and is `undefined` when no stored baseline exists. -/
def mkFlResultPrior (aggregator : String) (storedBaseline : Option Result)
    (data : ServiceResponse) : Result :=
  let aggLabel := getAggregatorLabel aggregator
  let backendAgg := backendAggregator aggregator
  let flAccuracy := jsNumQ data.accuracy 0
  { baselineAccuracy := flAccuracy
    privateAccuracy := some flAccuracy
    accuracyLoss := storedBaseline.map (fun b => b.baselineAccuracy - flAccuracy)
    f1Score := data.f1_score
    precision := data.precision
    «recall» := data.«recall»
    epsilon := none
    samplesEvaluated := jsNumN data.samples_evaluated 0
    modelUsed := aggLabel ++ " (Federated)"
    aggregator := some backendAgg
    strategy := some StrategyTag.fl }

/-- The component-level mutable state of `App` that the orchestration
reads and writes (part_002 lines 62-75): `status`, `comparison`, `error`,
`showEthicsPrompt` and `lastEthicsPromptTime`. -/
structure AppState where
  status : Status
  comparison : ComparisonData
  error : Option String
  showEthicsPrompt : Bool
  lastEthicsPromptTime : ℤ
deriving DecidableEq, Repr

/-- Initial values of the `useState` hooks (part_002 lines 62-75). -/
def initState : AppState :=
  { status := Status.idle
    comparison := { baseline := none, «private» := none }
    error := none
    showEthicsPrompt := false
    lastEthicsPromptTime := 0 }

/-- Initial `config` (part_002 lines 56-61). -/
def initConfig : Config :=
  { sampleDataset := "diabetes"
    modelType := "fnn"
    dpEnabled := true
    epsilon := some 1 }

/-- The cooldown constant `ETHICS_PROMPT_COOLDOWN_MS` (part_002 line 76). -/
def ETHICS_PROMPT_COOLDOWN_MS : ℤ := 30000

/-- The cooldown test `now - lastEthicsPromptTime >= ETHICS_PROMPT_COOLDOWN_MS`
of the reflection gate (part_002 line 307). -/
def shouldPrompt (lastEthicsPromptTime now : ℤ) : Bool :=
  decide (ETHICS_PROMPT_COOLDOWN_MS ≤ now - lastEthicsPromptTime)

/-- The body of the timeout callback of `runComparison`
(part_002 lines 305-310): when the cooldown has elapsed the prompt is
shown and the last-prompt timestamp is set to `now`; otherwise nothing
changes. -/
def ethicsGateStep (now : ℤ) (s : AppState) : AppState :=
  if shouldPrompt s.lastEthicsPromptTime now then
    { s with showEthicsPrompt := true, lastEthicsPromptTime := now }
  else s

/-- State effect of one `runExperiment(runBaseline)` invocation
(part_002 lines 156-227) whose fetch resolved with `outcome`: sets
`status` to running and clears `error`; on success stores the baseline or
the DP `Result` under `comparison`; on failure sets `error` to
`errorData.detail || 'Failed to run experiment'`; finally resets `status`
to idle. -/
def runExperiment (config : Config) (runBaseline : Bool) (outcome : CallOutcome)
    (s : AppState) : AppState :=
  let s1 : AppState := { s with status := Status.running, error := none }
  let s2 : AppState :=
    match outcome with
    | CallOutcome.fail detail =>
        { s1 with error := some (jsStr detail "Failed to run experiment") }
    | CallOutcome.ok data =>
        if runBaseline then
          { s1 with comparison := { s1.comparison with baseline := some (mkBaselineResult data) } }
        else
          { s1 with comparison := { s1.comparison with «private» := some (mkDpResult config data) } }
  { s2 with status := Status.idle }

/-- State effect of one `runFederatedExperiment()` invocation
(part_002 lines 234-293) whose fetch resolved with `outcome`. -/
def runFederatedExperiment (_config : Config) (aggregator : String)
    (outcome : CallOutcome) (s : AppState) : AppState :=
  let s1 : AppState := { s with status := Status.running, error := none }
  let s2 : AppState :=
    match outcome with
    | CallOutcome.fail detail =>
        { s1 with error := some (jsStr detail "Failed to run federated experiment") }
    | CallOutcome.ok data =>
        { s1 with comparison := { s1.comparison with «private» := some (mkFlResult aggregator data) } }
  { s2 with status := Status.idle }

/-- State effect of one complete `runComparison()` cycle
(part_002 lines 295-317), given the outcomes of the (up to two) fetches
and the timestamp `now` at which the delayed ethics-gate callback runs:
the comparison, prompt and error are reset, the baseline run is awaited,
and then, on the differential-privacy path with `dpEnabled`, the DP run
is awaited (unconditionally, with no test of the baseline outcome) and
the cooldown-gated prompt callback fires; on the federated path the
federated run is awaited. -/
def runComparison (trainingMode : TrainingMode) (config : Config)
    (aggregator : String) (out1 out2 : CallOutcome) (now : ℤ)
    (s : AppState) : AppState :=
  let s0 : AppState :=
    { s with comparison := { baseline := none, «private» := none }
             showEthicsPrompt := false
             error := none }
  match trainingMode with
  | TrainingMode.dp =>
      let s1 := runExperiment config true out1 s0
      if config.dpEnabled then
        ethicsGateStep now (runExperiment config false out2 s1)
      else s1
  | TrainingMode.fl =>
      let s1 := runExperiment config true out1 s0
      runFederatedExperiment config aggregator out2 s1

/-- Kind of an evaluation call in the differential-privacy cycle. -/
inductive RunKind where
  | baseline
  | prot
deriving DecidableEq, Repr

/-- Observable call events of a run cycle: a request being issued to the
evaluation service, and its promise settling (successfully or not). -/
inductive Event where
  | callStart (kind : RunKind) (req : ExperimentRequest)
  | callResolve (kind : RunKind) (success : Bool)
deriving DecidableEq, Repr

/-- Call trace of one differential-privacy `runComparison()` cycle
(part_002 lines 300-312): `await runExperiment(true)` issues and awaits
the baseline call; then, whenever `config.dpEnabled` holds — with no test
of the baseline outcome — `await runExperiment(false)` issues and awaits
the protected call. -/
def dpCallTrace (config : Config) (out1 out2 : CallOutcome) : List Event :=
  [Event.callStart RunKind.baseline (mkExperimentRequest config true),
   Event.callResolve RunKind.baseline (isOk out1)]
  ++ (if config.dpEnabled then
       [Event.callStart RunKind.prot (mkExperimentRequest config false),
        Event.callResolve RunKind.prot (isOk out2)]
      else [])

/-- Writes a differential-privacy submission performs on the `comparison`
aggregate, in program order: `reset` is `setComparison({baseline: null,
private: null})` (part_002 line 296), `applyBaseline r` is
`setComparison(prev => ({...prev, baseline: result}))` (line 204) and
`applyPrivate r` is `setComparison(prev => ({...prev, private: result}))`
(line 219).  Each functional update is applied unconditionally: the
source attaches no submission epoch to a result. -/
inductive SubmitAction where
  | reset
  | applyBaseline (r : Result)
  | applyPrivate (r : Result)
deriving DecidableEq, Repr

/-- Effect of one `setComparison` call on the aggregate. -/
def applySubmitAction (c : ComparisonData) : SubmitAction → ComparisonData
  | SubmitAction.reset => { baseline := none, «private» := none }
  | SubmitAction.applyBaseline r => { c with baseline := some r }
  | SubmitAction.applyPrivate r => { c with «private» := some r }

/-- Replays a sequence of `setComparison` calls. -/
def applySubmitActions (acts : List SubmitAction) (c : ComparisonData) : ComparisonData :=
  acts.foldl applySubmitAction c

/-- The `comparison` writes of one successful differential-privacy
submission, in the order `runComparison` performs them. -/
def dpSubmissionActions (r1 r2 : Result) : List SubmitAction :=
  [SubmitAction.reset, SubmitAction.applyBaseline r1, SubmitAction.applyPrivate r2]

/-- The `isLoading` flag (part_002 line 78): `status === 'running'`;
the run button is rendered with `disabled={isLoading}` (line 624). -/
def isLoading (s : AppState) : Bool :=
  s.status == Status.running

/-- The `hasResults` flag (part_002 line 374). -/
def hasResults (s : AppState) : Bool :=
  s.comparison.baseline.isSome || s.comparison.«private».isSome

/-- Whether the baseline result card is rendered (part_002 lines 653-658):
inside the `hasResults && !isLoading` block, guarded by
`comparison.baseline`. -/
def baselineCardShown (s : AppState) : Bool :=
  hasResults s && !(isLoading s) && s.comparison.baseline.isSome

/-- Whether the error box is rendered (part_002 lines 629-633). -/
def errorBoxShown (s : AppState) : Bool :=
  s.error.isSome

/-- Render guard of the ethics (reflection) prompt modal
(part_002 line 418): `showEthicsPrompt && comparison.private`. -/
def ethicsPromptDisplayed (s : AppState) : Bool :=
  s.showEthicsPrompt && s.comparison.«private».isSome

/-- A service response with every optional field absent. -/
def emptyResponse : ServiceResponse :=
  { baseline_accuracy := none, private_accuracy := none, accuracy_loss := none,
    f1_score := none, precision := none, «recall» := none, epsilon := none,
    samples_evaluated := none, model_used := none, accuracy := none }

/-- A successful baseline-run response (accuracy 86 on 154 samples). -/
def baselineResponseA : ServiceResponse :=
  { emptyResponse with
      baseline_accuracy := some 86, samples_evaluated := some 154,
      model_used := some "Feedforward Neural Network" }

/-- A second, distinct successful baseline-run response (accuracy 82). -/
def baselineResponseB : ServiceResponse :=
  { emptyResponse with
      baseline_accuracy := some 82, samples_evaluated := some 6033,
      model_used := some "Feedforward Neural Network" }

/-- A successful protected DP-run response (private accuracy 84,
realized epsilon 1). -/
def dpResponseA : ServiceResponse :=
  { emptyResponse with
      private_accuracy := some 84, accuracy_loss := some 2,
      epsilon := some 1, samples_evaluated := some 154,
      model_used := some "DP Feedforward Neural Network" }

/-- A second, distinct successful protected DP-run response. -/
def dpResponseB : ServiceResponse :=
  { emptyResponse with
      private_accuracy := some 80, accuracy_loss := some 3,
      epsilon := some 3, samples_evaluated := some 6033,
      model_used := some "DP Feedforward Neural Network" }

/-- A protected DP-run response whose realized `epsilon` is `0`. -/
def dpResponseEpsZero : ServiceResponse :=
  { emptyResponse with
      private_accuracy := some 84, accuracy_loss := some 2,
      epsilon := some 0, samples_evaluated := some 154,
      model_used := some "DP Feedforward Neural Network" }

/-- A federated-run response that omits `accuracy_loss` but embeds its own
`baseline_accuracy` (80) next to the federated `accuracy` (70). -/
def flResponseNoLoss : ServiceResponse :=
  { emptyResponse with
      baseline_accuracy := some 80, accuracy := some 70,
      samples_evaluated := some 154 }

/-- A valid configuration whose strategy is NoPrivacy: differential
privacy disabled on the `dp` training mode. -/
def noPrivConfig : Config := { initConfig with dpEnabled := false }

/-- The state reached when the baseline call failed but the protected DP
call succeeded and the ethics gate then fired: the prompt flag is set, a
protected result is stored, and no baseline result exists. -/
def promptNoBaselineState : AppState :=
  { initState with
      showEthicsPrompt := true,
      comparison := { baseline := none, «private» := some (mkDpResult initConfig dpResponseA) } }

/-- Sanity: the user-facing id list is the list of selector option values. -/
theorem userAggregatorIds_eq_option_values :
    userAggregatorIds = aggregatorOptions.map (fun o => o.value) := by decide

/-- C1 counterexample: the claim asserts that when the baseline call
fails no protected call is made.  In the code, `runComparison` tests only
`config.dpEnabled` before awaiting the DP run — never the baseline
outcome — so with the default DP configuration a failed baseline call is
still followed by a protected call: the protected call-start event occurs
in the trace even though the baseline call failed. -/
theorem C1_cex :
    isOk (CallOutcome.fail none) = false
    ∧ (Event.callStart RunKind.prot (mkExperimentRequest initConfig false))
        ∈ dpCallTrace initConfig (CallOutcome.fail none) (CallOutcome.ok emptyResponse) := by decide

/-- C1 (amended): for every differential-privacy submission, the
protected call is issued only after the baseline call has resolved
(successfully or not): any protected call-start event in the trace is
preceded by the baseline call's resolution event.  The calls are strictly
sequential, but a baseline failure does not suppress the protected
call. -/
theorem C1_amended (config : Config) (out1 out2 : CallOutcome) (i : ℕ) (req : ExperimentRequest)
    (h : (dpCallTrace config out1 out2)[i]? = some (Event.callStart RunKind.prot req)) :
    ∃ j, j < i ∧ (dpCallTrace config out1 out2)[j]?
        = some (Event.callResolve RunKind.baseline (isOk out1)) := by
  cases hdp : config.dpEnabled with
  | false =>
      simp [dpCallTrace, hdp] at h
      rcases i with _ | _ | i <;> simp at h
  | true =>
      simp only [dpCallTrace, hdp, if_true] at h ⊢
      rcases i with _ | _ | _ | _ | i
      · simp at h
      · simp at h
      · exact ⟨1, by omega, by simp⟩
      · simp at h
      · simp at h

/-- C1 witness: in the concrete trace of a failed-baseline submission,
the protected call-start at position 2 is preceded by the baseline
resolution event. -/
theorem C1_witness :
    ∃ j, j < 2 ∧ (dpCallTrace initConfig (CallOutcome.fail none) (CallOutcome.ok emptyResponse))[j]?
        = some (Event.callResolve RunKind.baseline (isOk (CallOutcome.fail none))) :=
  C1_amended initConfig (CallOutcome.fail none) (CallOutcome.ok emptyResponse) 2
    (mkExperimentRequest initConfig false) (by decide)

/-- C2 counterexample: the claim asserts that a result belonging to a
superseded submission is discarded and never applied to the Comparison
aggregate.  The interleaving below is a valid schedule of two overlapping
submissions A and B (each submission's writes are a subsequence, and B's
reset follows A's reset, so B supersedes A) in which both of A's results
resolve after B's; because each `setComparison` functional update is
applied unconditionally, the final aggregate holds A's stale baseline and
protected results, not B's. -/
theorem C2_cex :
    List.Sublist (dpSubmissionActions (mkBaselineResult baselineResponseA) (mkDpResult initConfig dpResponseA))
      [SubmitAction.reset, SubmitAction.reset,
       SubmitAction.applyBaseline (mkBaselineResult baselineResponseB),
       SubmitAction.applyPrivate (mkDpResult initConfig dpResponseB),
       SubmitAction.applyBaseline (mkBaselineResult baselineResponseA),
       SubmitAction.applyPrivate (mkDpResult initConfig dpResponseA)]
    ∧ List.Sublist (dpSubmissionActions (mkBaselineResult baselineResponseB) (mkDpResult initConfig dpResponseB))
      [SubmitAction.reset, SubmitAction.reset,
       SubmitAction.applyBaseline (mkBaselineResult baselineResponseB),
       SubmitAction.applyPrivate (mkDpResult initConfig dpResponseB),
       SubmitAction.applyBaseline (mkBaselineResult baselineResponseA),
       SubmitAction.applyPrivate (mkDpResult initConfig dpResponseA)]
    ∧ (applySubmitActions
        [SubmitAction.reset, SubmitAction.reset,
         SubmitAction.applyBaseline (mkBaselineResult baselineResponseB),
         SubmitAction.applyPrivate (mkDpResult initConfig dpResponseB),
         SubmitAction.applyBaseline (mkBaselineResult baselineResponseA),
         SubmitAction.applyPrivate (mkDpResult initConfig dpResponseA)]
        { baseline := none, «private» := none })
      = { baseline := some (mkBaselineResult baselineResponseA),
          «private» := some (mkDpResult initConfig dpResponseA) }
    ∧ mkBaselineResult baselineResponseA ≠ mkBaselineResult baselineResponseB := by decide

/-- C2 (amended): the source has no submission-epoch mechanism: every
`setComparison` update is applied unconditionally, so a result that
arrives last is stored in the aggregate regardless of any resets (i.e.
superseding submissions) that happened in between; overlapping
submissions are prevented only by the UI disabling the run button while
`status` is `running`. -/
theorem C2_amended (acts : List SubmitAction) (c : ComparisonData) (r : Result) :
    (applySubmitActions (acts ++ [SubmitAction.applyBaseline r]) c).baseline = some r
    ∧ (applySubmitActions (acts ++ [SubmitAction.applyPrivate r]) c).«private» = some r := by
  constructor <;>
    simp [applySubmitActions, List.foldl_append, applySubmitAction]

/-- C3 counterexample: the claim asserts the prompt also fires when no
prompt has ever fired.  The never-fired state stores the sentinel
`lastEthicsPromptTime = 0`, so at `now = 29999` (less than the 30000 ms
cooldown past the epoch) the gate does not fire even though no prompt has
ever fired. -/
theorem C3_cex :
    initState.lastEthicsPromptTime = 0
    ∧ (ethicsGateStep 29999 initState).showEthicsPrompt = false
    ∧ (ethicsGateStep 29999 initState).lastEthicsPromptTime = 0 := by decide

/-- C3 (amended): the reflection gate fires iff `now - T ≥ 30000` ms
(so it is false at `T + 29999` and true at `T + 30000`), on firing it
sets the last-prompt timestamp to `now`, on not firing it changes
nothing, and the never-fired state is represented by the sentinel
`T = 0`, so in that state the gate fires iff `now ≥ 30000` — not
unconditionally. -/
theorem C3_amended (T now : ℤ) (s : AppState) :
    shouldPrompt T now = decide (now - T ≥ 30000)
    ∧ shouldPrompt T (T + 29999) = false
    ∧ shouldPrompt T (T + 30000) = true
    ∧ (ethicsGateStep (T + 30000) { s with lastEthicsPromptTime := T }).showEthicsPrompt = true
    ∧ (ethicsGateStep (T + 30000) { s with lastEthicsPromptTime := T }).lastEthicsPromptTime = T + 30000
    ∧ ethicsGateStep (T + 29999) { s with lastEthicsPromptTime := T } = { s with lastEthicsPromptTime := T }
    ∧ shouldPrompt 0 now = decide (now ≥ 30000) := by
  have hlt : shouldPrompt T (T + 29999) = false := by
    simp [shouldPrompt, ETHICS_PROMPT_COOLDOWN_MS]
  have hge : shouldPrompt T (T + 30000) = true := by
    simp [shouldPrompt, ETHICS_PROMPT_COOLDOWN_MS]
  refine ⟨by simp [shouldPrompt, ETHICS_PROMPT_COOLDOWN_MS, ge_iff_le], hlt, hge, ?_, ?_, ?_, ?_⟩
  · simp [ethicsGateStep, hge]
  · simp [ethicsGateStep, hge]
  · simp [ethicsGateStep, hlt]
  · simp [shouldPrompt, ETHICS_PROMPT_COOLDOWN_MS, ge_iff_le]

/-- C4: when the protected DP call fails after a successful baseline
call, the stored baseline Result is preserved unchanged, the baseline
card is still rendered, and the failure is surfaced in the error box as
the service's `detail` message, or the generic message
`Failed to run experiment` when the service gave none (the `jsStr`
fallback). -/
theorem C4_partial_success (config : Config) (agg : String) (data : ServiceResponse)
    (detail : Option String) (now : ℤ) (s : AppState)
    (hdp : config.dpEnabled = true) :
    (runComparison TrainingMode.dp config agg (CallOutcome.ok data) (CallOutcome.fail detail) now s).comparison.baseline
        = some (mkBaselineResult data)
    ∧ (runComparison TrainingMode.dp config agg (CallOutcome.ok data) (CallOutcome.fail detail) now s).error
        = some (jsStr detail "Failed to run experiment")
    ∧ baselineCardShown (runComparison TrainingMode.dp config agg (CallOutcome.ok data) (CallOutcome.fail detail) now s) = true
    ∧ errorBoxShown (runComparison TrainingMode.dp config agg (CallOutcome.ok data) (CallOutcome.fail detail) now s) = true := by
  unfold runComparison
  rw [hdp]
  simp only [if_true]
  unfold ethicsGateStep
  split <;>
    simp [runExperiment, baselineCardShown, errorBoxShown, hasResults, isLoading]

/-- C4 witness: a concrete successful baseline followed by a failed
protected call with service message `boom`. -/
theorem C4_witness :
    (runComparison TrainingMode.dp initConfig "fedavg" (CallOutcome.ok baselineResponseB) (CallOutcome.fail (some "boom")) 0 initState).comparison.baseline
        = some (mkBaselineResult baselineResponseB)
    ∧ (runComparison TrainingMode.dp initConfig "fedavg" (CallOutcome.ok baselineResponseB) (CallOutcome.fail (some "boom")) 0 initState).error
        = some (jsStr (some "boom") "Failed to run experiment")
    ∧ baselineCardShown (runComparison TrainingMode.dp initConfig "fedavg" (CallOutcome.ok baselineResponseB) (CallOutcome.fail (some "boom")) 0 initState) = true
    ∧ errorBoxShown (runComparison TrainingMode.dp initConfig "fedavg" (CallOutcome.ok baselineResponseB) (CallOutcome.fail (some "boom")) 0 initState) = true :=
  C4_partial_success initConfig "fedavg" baselineResponseB (some "boom") 0 initState rfl

/-- C5: for every valid configuration whose strategy is NoPrivacy
(differential privacy disabled), a submission issues exactly one
evaluation call — the baseline — whose request has privacy disabled and
no budget sent (this suppression holds for every configuration, since a
baseline request always forces `dp_enabled` off and `epsilon` null), and
the Comparison's protected member remains null. -/
theorem C5_noprivacy (config : Config) (agg : String) (out1 out2 : CallOutcome)
    (now : ℤ) (s : AppState) (h : config.dpEnabled = false) :
    dpCallTrace config out1 out2
      = [Event.callStart RunKind.baseline (mkExperimentRequest config true),
         Event.callResolve RunKind.baseline (isOk out1)]
    ∧ (mkExperimentRequest config true).dp_enabled = false
    ∧ (mkExperimentRequest config true).epsilon = none
    ∧ (runComparison TrainingMode.dp config agg out1 out2 now s).comparison.«private» = none := by
  refine ⟨by simp [dpCallTrace, h], rfl, rfl, ?_⟩
  unfold runComparison
  rw [h]
  cases out1 <;> simp [runExperiment]

/-- C5 witness: the default configuration with differential privacy
switched off yields the single baseline call and a null protected
member. -/
theorem C5_witness :
    dpCallTrace noPrivConfig (CallOutcome.ok baselineResponseA) (CallOutcome.ok dpResponseA)
      = [Event.callStart RunKind.baseline (mkExperimentRequest noPrivConfig true),
         Event.callResolve RunKind.baseline (isOk (CallOutcome.ok baselineResponseA))]
    ∧ (mkExperimentRequest noPrivConfig true).dp_enabled = false
    ∧ (mkExperimentRequest noPrivConfig true).epsilon = none
    ∧ (runComparison TrainingMode.dp noPrivConfig "fedavg" (CallOutcome.ok baselineResponseA) (CallOutcome.ok dpResponseA) 0 initState).comparison.«private» = none :=
  C5_noprivacy noPrivConfig "fedavg" (CallOutcome.ok baselineResponseA) (CallOutcome.ok dpResponseA) 0 initState rfl

/-- C6 counterexample: the claim asserts the recorded epsilon is the
service-returned realized epsilon whenever the service returns one.  The
code computes it as `data.epsilon || config.epsilon`, and the JavaScript
`||` treats the number `0` as absent: for a response carrying realized
epsilon `0` and requested epsilon `1`, the stored epsilon is `1`, not the
service-returned `0`. -/
theorem C6_cex :
    dpResponseEpsZero.epsilon = some 0
    ∧ initConfig.epsilon = some 1
    ∧ (mkDpResult initConfig dpResponseEpsZero).epsilon = some 1
    ∧ some (1 : ℚ) ≠ some (0 : ℚ) := by decide

/-- C6 (amended): for a protected differential-privacy run, the requested
budget is passed to the service verbatim, and the epsilon recorded in the
protected Result is the service-returned realized epsilon whenever the
service returns a nonzero one, falling back to the requested epsilon when
the service omits it or returns the falsy value `0` (omission is treated
as unchanged-from-request, not as an error). -/
theorem C6_amended (config : Config) (data : ServiceResponse) :
    (mkExperimentRequest { config with dpEnabled := true } false).epsilon = config.epsilon
    ∧ (mkDpResult config data).epsilon =
        (match data.epsilon with
         | none => config.epsilon
         | some e => if e = 0 then config.epsilon else some e) := by
  refine ⟨rfl, ?_⟩
  cases h : data.epsilon <;> simp [mkDpResult, jsOrQ, h]

/-- C7 counterexample: the claim asserts
`toUserId (toServiceId x) = x` for the defined methods.  For `fedavg`,
the service id is `FedAvg`, and the reverse display mapping
`getAggregatorLabel` looks `FedAvg` up among the user-facing option
values, finds nothing, and echoes `FedAvg` — which is not the original
user-facing identifier `fedavg`. -/
theorem C7_cex :
    backendAggregator "fedavg" = "FedAvg"
    ∧ getAggregatorLabel (backendAggregator "fedavg") = "FedAvg"
    ∧ "FedAvg" ≠ "fedavg" := by decide

/-- C7 (amended): for each of the five defined aggregation methods, the
round trip returns the service identifier, not the user-facing one:
`getAggregatorLabel (backendAggregator x) = backendAggregator x`
(the reverse display mapping echoes the unmapped service id), which
coincides with the display label of `x`
(`getAggregatorLabel x = backendAggregator x`), so the display is
unaffected even though the user-facing id is not recovered. -/
theorem C7_amended : ∀ x ∈ userAggregatorIds,
    getAggregatorLabel (backendAggregator x) = backendAggregator x
    ∧ getAggregatorLabel x = backendAggregator x := by decide

/-- C7 witness: the round trip for `scaffold` yields the service id. -/
theorem C7_witness :
    getAggregatorLabel (backendAggregator "scaffold") = backendAggregator "scaffold"
    ∧ getAggregatorLabel "scaffold" = backendAggregator "scaffold" :=
  C7_amended "scaffold" (by decide)

/-- C8 counterexample: the claim asserts translation of an unknown
aggregation identifier fails with `UnknownAggregationMethod`.  The code
`aggregatorMap[aggregator] || 'FedAvg'` has no failure path at all: for
the unknown identifier `median` it silently yields the default service id
`FedAvg` and the request proceeds. -/
theorem C8_cex :
    "median" ∉ userAggregatorIds ∧ backendAggregator "median" = "FedAvg" := by decide

/-- C8 (amended): for any aggregation identifier outside the closed
five-entry registry, the lookup is undefined and the translation silently
defaults to the service identifier `FedAvg`; no
`UnknownAggregationMethod` error exists in the code. -/
theorem C8_amended (x : String) (h : x ∉ userAggregatorIds) :
    aggregatorMap x = none ∧ backendAggregator x = "FedAvg" := by
  simp [userAggregatorIds] at h
  obtain ⟨h1, h2, h3, h4, h5⟩ := h
  refine ⟨?_, ?_⟩
  · simp [aggregatorMap, h1, h2, h3, h4, h5]
  · simp [backendAggregator, aggregatorMap, jsStr, h1, h2, h3, h4, h5]

/-- C8 witness: the unknown identifier `dp-sgd` silently maps to
`FedAvg`. -/
theorem C8_witness :
    aggregatorMap "dp-sgd" = none ∧ backendAggregator "dp-sgd" = "FedAvg" :=
  C8_amended "dp-sgd" (by decide)

/-- C9: there exists a federated evaluation response (one omitting
`accuracy_loss`) for which the accuracyLoss stored by the current
orchestrator variant (recomputed from the response's own embedded
baseline accuracy, part_002) differs from the accuracyLoss stored by the
earlier source variant (recomputed from the separately-fetched stored
baseline Result, frontend/src/App.tsx): the two variants' federated
accuracy-loss computations are not equivalent. -/
theorem C9_variant_divergence :
    ∃ (data : ServiceResponse) (b : Result),
      data.accuracy_loss = none
      ∧ (mkFlResult "fedavg" data).accuracyLoss ≠ (mkFlResultPrior "fedavg" (some b) data).accuracyLoss := by
  refine ⟨flResponseNoLoss, mkBaselineResult baselineResponseA, rfl, ?_⟩
  have h1 : (mkFlResult "fedavg" flResponseNoLoss).accuracyLoss = some 10 := by
    norm_num [mkFlResult, flResponseNoLoss, emptyResponse, jsNumQ]
  have h2 : (mkFlResultPrior "fedavg" (some (mkBaselineResult baselineResponseA)) flResponseNoLoss).accuracyLoss = some 16 := by
    norm_num [mkFlResultPrior, mkBaselineResult, flResponseNoLoss, baselineResponseA, emptyResponse, jsNumQ]
  rw [h1, h2]
  norm_num

/-- C10 counterexample: the claim asserts that whenever the prompt flag
is set and the protected Result is present, the baseline Result is also
present.  After a cycle whose baseline call failed but whose protected DP
call succeeded, the gate fires (the callback never checks the outcomes),
the render guard passes — the prompt is displayed — yet the baseline is
null, so the prompt's accuracy-loss text dereferences a null baseline. -/
theorem C10_cex :
    ethicsPromptDisplayed (runComparison TrainingMode.dp initConfig "fedavg"
        (CallOutcome.fail none) (CallOutcome.ok dpResponseA) 1000000 initState) = true
    ∧ (runComparison TrainingMode.dp initConfig "fedavg"
        (CallOutcome.fail none) (CallOutcome.ok dpResponseA) 1000000 initState).comparison.baseline = none := by decide

/-- C10 (amended): whenever the reflection prompt is actually displayed
the protected Result is non-null (the render guard requires it), and the
baseline Result is guaranteed present only when the baseline call itself
succeeded — a failed baseline with a successful protected call leaves the
prompt displayable over a null baseline. -/
theorem C10_amended (s : AppState) (config : Config) (agg : String)
    (data : ServiceResponse) (out2 : CallOutcome) (now : ℤ)
    (h : ethicsPromptDisplayed s = true) :
    s.comparison.«private».isSome = true
    ∧ (runComparison TrainingMode.dp config agg (CallOutcome.ok data) out2 now s).comparison.baseline
        = some (mkBaselineResult data) := by
  constructor
  · simp [ethicsPromptDisplayed] at h
    exact h.2
  · unfold runComparison
    cases hdp : config.dpEnabled
    · simp [runExperiment]
    · simp only [if_true]
      unfold ethicsGateStep
      split <;> cases out2 <;> simp [runExperiment]

/-- C10 witness: a displayed-prompt state has a protected Result, and a
successful baseline call stores the baseline Result. -/
theorem C10_witness :
    promptNoBaselineState.comparison.«private».isSome = true
    ∧ (runComparison TrainingMode.dp initConfig "fedavg" (CallOutcome.ok baselineResponseA)
        (CallOutcome.ok dpResponseA) 50000 promptNoBaselineState).comparison.baseline
      = some (mkBaselineResult baselineResponseA) :=
  C10_amended promptNoBaselineState initConfig "fedavg" baselineResponseA
    (CallOutcome.ok dpResponseA) 50000 (by decide)
